import Mathlib

/-!
Shallow embedding of `src/transpilers/swc.ts`: the swc transpiler plugin for
ts-node.  TypeScript optional values become `Option`; the tri-state compiler
flags (`true` / `false` / absent) become `Option Bool`; numeric enums
(`ts.ScriptTarget`, `ts.ModuleKind`, `ts.JsxEmit`) become `Nat` constants as
written in the source.  The dynamically-shaped swc backend is modelled as a
capability record (`SwcInstance`) exposing the three shapes of
`transformSync` calls the source makes: the target-only probe, the
full-options validation, and the real per-file transform.
-/

namespace SwcTs

/-- Host compiler options snapshot: exactly the fields destructured by
`createSwcOptions` from `compilerOptions`. -/
structure CompilerOptions where
  esModuleInterop : Option Bool
  sourceMap : Option Bool
  importHelpers : Option Bool
  experimentalDecorators : Option Bool
  emitDecoratorMetadata : Option Bool
  target : Option Nat
  module : Option Nat
  jsx : Option Nat
  jsxFactory : Option String
  jsxFragmentFactory : Option String
  strict : Option Bool
  alwaysStrict : Option Bool
  noImplicitUseStrict : Option Bool
deriving DecidableEq

/-- The auxiliary module emit-kind selector (`NodeModuleEmitKind` in the
source): how a Node16/NodeNext host module kind should be emulated. -/
inductive NodeModuleEmitKind where
  | nodecjs
  | nodeesm
deriving DecidableEq, Fintype

/- Numeric values of the `ModuleKind` constant table in the source. -/
namespace ModuleKind

def None : Nat := 0

def CommonJS : Nat := 1

def AMD : Nat := 2

def UMD : Nat := 3

def System : Nat := 4

def ES2015 : Nat := 5

def ES2020 : Nat := 6

def ESNext : Nat := 99

def Node16 : Nat := 100

def NodeNext : Nat := 199

end ModuleKind

/- Numeric values of the `JsxEmit` constant table in the source. -/
namespace JsxEmit

def ReactJSX : Nat := 4

def ReactJSXDev : Nat := 5

end JsxEmit

/-- The key-value entries of the `targetMapping` map, one per
`targetMapping.set` call in the source, in order. -/
def targetMappingEntries : List (Nat × String) :=
  [(0, "es3"), (1, "es5"), (2, "es2015"), (3, "es2016"), (4, "es2017"),
   (5, "es2018"), (6, "es2019"), (7, "es2020"), (8, "es2021"), (9, "es2022"),
   (99, "esnext")]

/-- The `targetMapping` map from `ts.ScriptTarget` numeric values to swc
target names; `none` models a key absent from the `Map`. -/
def targetMapping (t : Nat) : Option String :=
  targetMappingEntries.lookup t

/-- The ordered `swcTargets` list, oldest first, used as the probe order. -/
def swcTargets : List String :=
  ["es3", "es5", "es2015", "es2016", "es2017", "es2018", "es2019",
   "es2020", "es2021", "es2022", "esnext"]

/-- The `module` section of an swc options object as built by
`createVariant`. -/
structure ModuleConfig where
  noInterop : Bool
  type : String
  strictMode : Bool
  ignoreDynamic : Bool
deriving DecidableEq

/-- The `jsc.parser` section (`TsParserConfig`).  The TypeScript field named
by the reserved word for grammar declarations is called `syntaxKind` here. -/
structure ParserConfig where
  syntaxKind : String
  tsx : Bool
  decorators : Option Bool
  dynamicImport : Bool
  importAssertions : Bool
deriving DecidableEq

/-- The `jsc.transform.react` section. -/
structure ReactConfig where
  throwIfNamespace : Bool
  development : Option Bool
  useBuiltins : Bool
  pragma : Option String
  pragmaFrag : Option String
  runtime : Option String
deriving DecidableEq

/-- The `jsc.transform` section. -/
structure TransformConfig where
  decoratorMetadata : Option Bool
  legacyDecorator : Bool
  react : ReactConfig
deriving DecidableEq

/-- The `jsc.experimental` section. -/
structure ExperimentalConfig where
  keepImportAssertions : Bool
deriving DecidableEq

/-- The `jsc` section. -/
structure JscConfig where
  externalHelpers : Option Bool
  parser : ParserConfig
  target : Option String
  transform : TransformConfig
  keepClassNames : Bool
  experimental : ExperimentalConfig
deriving DecidableEq

/-- A fully-resolved swc options object (`swcTypes.Options`) as built by
`createVariant`; `module = none` models the `undefined` branch of the
conditional on `moduleType`. -/
structure SwcOptions where
  sourceMaps : Option Bool
  module : Option ModuleConfig
  swcrc : Bool
  jsc : JscConfig
deriving DecidableEq

/-- The output of one transpile call: `{ outputText, sourceMapText }`. -/
structure TranspileOutput where
  outputText : String
  sourceMapText : Option String
deriving DecidableEq

/-- The opaque swc backend, modelled as a capability record covering the
three shapes of `transformSync` invocation in the source:
`targetOk t` is whether the probe call on empty input requesting only the
target `t` succeeds; `validate o` is `none` on success and `some msg` when
the trial call on empty input with the whole options object `o` throws an
error with message `msg`; `transformSync input o fileName` is the real
per-file call on the options `o` extended with the literal `fileName`,
returning `(code, map)`. -/
structure SwcInstance where
  targetOk : String → Bool
  validate : SwcOptions → Option String
  transformSync : String → SwcOptions → String → String × Option String

/-- Derivation of the `strictMode` flag from the three tri-state host
flags, exactly as the conditional at the `strictMode` binding. -/
def strictMode (alwaysStrict strict noImplicitUseStrict : Option Bool) : Bool :=
  if (alwaysStrict = some false ∨ (alwaysStrict ≠ some true ∧ strict ≠ some true))
      ∧ noImplicitUseStrict = some true
  then false
  else true

/-- Whether the host module kind is Node16 or NodeNext (`isNodeModuleKind`). -/
def isNodeModuleKind (module : Option Nat) : Bool :=
  module = some ModuleKind.Node16 ∨ module = some ModuleKind.NodeNext

/-- The `moduleType` conditional chain mapping the host module kind and the
emit-kind selector to the swc module type string. -/
def moduleType (module : Option Nat) (nodeModuleEmitKind : Option NodeModuleEmitKind) : String :=
  if module = some ModuleKind.CommonJS then "commonjs"
  else if module = some ModuleKind.AMD then "amd"
  else if module = some ModuleKind.UMD then "umd"
  else if isNodeModuleKind module ∧ nodeModuleEmitKind = some .nodecjs then "commonjs"
  else if isNodeModuleKind module ∧ nodeModuleEmitKind = some .nodeesm then "es6"
  else "es6"

/-- JavaScript comparison `target! >= 3` where `target` may be `undefined`
(`undefined >= 3` is false). -/
def keepClassNames (target : Option Nat) : Bool :=
  match target with
  | some t => decide (3 ≤ t)
  | none => false

/-- The `jsxRuntime` binding: the string automatic for the two ReactJSX
modes, absent otherwise. -/
def jsxRuntime (jsx : Option Nat) : Option String :=
  if jsx = some JsxEmit.ReactJSX ∨ jsx = some JsxEmit.ReactJSXDev
  then some "automatic"
  else none

/-- The `jsxDevelopment` binding: `true` only for ReactJSXDev. -/
def jsxDevelopment (jsx : Option Nat) : Option Bool :=
  if jsx = some JsxEmit.ReactJSXDev then some true else none

/-- The target string the requested level maps to:
look up the (non-null-asserted) target in `targetMapping` and default to
es3, the oldest entry, when absent or unmapped. -/
def mappedSwcTarget (target : Option Nat) : String :=
  (target.bind targetMapping).getD "es3"

/-- Index of the mapped target inside `swcTargets`
(`swcTargets.indexOf(swcTarget)`; the mapped target is always a member). -/
def mappedIdx (target : Option Nat) : Nat :=
  swcTargets.indexOf (mappedSwcTarget target)

/-- The downward probing loop
`for (; swcTargetIndex >= 0; swcTargetIndex--) { try ... break } `:
starting at index `i`, return the first index at which `ok` holds, stepping
downward; `none` models the index running past the first entry to `-1`. -/
def probeLoop (ok : Nat → Bool) : Nat → Option Nat
  | 0 => if ok 0 then some 0 else none
  | i + 1 => if ok (i + 1) then some (i + 1) else probeLoop ok i

/-- The trial compile of the probe at table index `i`: the source reads
`swcTargets[swcTargetIndex]` and hands that string to the backend. -/
def okIdx (swcInstance : SwcInstance) (i : Nat) : Bool :=
  swcInstance.targetOk (swcTargets.getD i "")

/-- End-to-end probed target: `swcTarget = swcTargets[swcTargetIndex]`
after the loop; when the loop exhausts the table the index is `-1` and the
lookup yields `undefined`, modelled as `none`. -/
def probedSwcTarget (swcInstance : SwcInstance) (target : Option Nat) : Option String :=
  (probeLoop (okIdx swcInstance) (mappedIdx target)).bind fun i => swcTargets[i]?

/-- The `createVariant` closure without its validation step: the pure
construction of one swc options object from the host configuration, the
emit-kind selector, the probed target, and the `isTsx` flag. -/
def createVariant (compilerOptions : CompilerOptions)
    (nodeModuleEmitKind : Option NodeModuleEmitKind)
    (swcTarget : Option String) (isTsx : Bool) : SwcOptions :=
  let mt := moduleType compilerOptions.module nodeModuleEmitKind
  { sourceMaps := compilerOptions.sourceMap
    module :=
      if mt ≠ "" then
        some
          { noInterop := !(compilerOptions.esModuleInterop.getD false)
            type := mt
            strictMode :=
              strictMode compilerOptions.alwaysStrict compilerOptions.strict
                compilerOptions.noImplicitUseStrict
            ignoreDynamic := nodeModuleEmitKind = some .nodecjs }
      else none
    swcrc := false
    jsc :=
      { externalHelpers := compilerOptions.importHelpers
        parser :=
          { syntaxKind := "typescript"
            tsx := isTsx
            decorators := compilerOptions.experimentalDecorators
            dynamicImport := true
            importAssertions := true }
        target := swcTarget
        transform :=
          { decoratorMetadata := compilerOptions.emitDecoratorMetadata
            legacyDecorator := true
            react :=
              { throwIfNamespace := false
                development := jsxDevelopment compilerOptions.jsx
                useBuiltins := false
                pragma := compilerOptions.jsxFactory
                pragmaFrag := compilerOptions.jsxFragmentFactory
                runtime := jsxRuntime compilerOptions.jsx } }
        keepClassNames := keepClassNames compilerOptions.target
        experimental := { keepImportAssertions := true } } }

/-- The fixed explanatory text of the validation-gate error message. -/
def validationErrorText : String :=
  " threw an error when attempting to validate swc compiler options.\n" ++
  "You may be using an old version of swc which does not support the options used by ts-node.\n" ++
  "Try upgrading to the latest version of swc.\n" ++
  "Error message from swc:\n"

/-- The `createVariant` closure including its validation gate: build the
options object, trial-compile empty input with it, and either return it or
throw the wrapping error. -/
def createVariantChecked (swcInstance : SwcInstance) (swcDepName : String)
    (compilerOptions : CompilerOptions)
    (nodeModuleEmitKind : Option NodeModuleEmitKind)
    (swcTarget : Option String) (isTsx : Bool) : Except String SwcOptions :=
  let swcOptions := createVariant compilerOptions nodeModuleEmitKind swcTarget isTsx
  match swcInstance.validate swcOptions with
  | none => .ok swcOptions
  | some msg => .error (swcDepName ++ validationErrorText ++ msg)

/-- The body of `createSwcOptions`: probe the target, then build and
validate the two variants, non-tsx first. -/
def createSwcOptions (compilerOptions : CompilerOptions)
    (nodeModuleEmitKind : Option NodeModuleEmitKind)
    (swcInstance : SwcInstance) (swcDepName : String) :
    Except String (SwcOptions × SwcOptions) :=
  let swcTarget := probedSwcTarget swcInstance compilerOptions.target
  match createVariantChecked swcInstance swcDepName compilerOptions
      nodeModuleEmitKind swcTarget false with
  | .error e => .error e
  | .ok nonTsxOptions =>
    match createVariantChecked swcInstance swcDepName compilerOptions
        nodeModuleEmitKind swcTarget true with
    | .error e => .error e
    | .ok tsxOptions => .ok (nonTsxOptions, tsxOptions)

/-- JavaScript endsWith on strings, phrased over the character data. -/
def endsWith (s suffix : String) : Bool :=
  suffix.data.isSuffixOf s.data

/-- The per-file `transpile` closure: pick the tsx options for `.tsx` and
`.jsx` filenames, the non-tsx options otherwise, pass the chosen object
extended with the literal filename to the backend, and repackage its
`(code, map)` result. -/
def transpile (swcInstance : SwcInstance)
    (nonTsxOptions tsxOptions : SwcOptions)
    (input : String) (fileName : String) : TranspileOutput :=
  let swcOptions :=
    if endsWith fileName ".tsx" || endsWith fileName ".jsx"
    then tsxOptions
    else nonTsxOptions
  let r := swcInstance.transformSync input swcOptions fileName
  { outputText := r.1, sourceMapText := r.2 }

/-- The `swc` argument of `create`: an explicit dependency name, or a
pre-loaded backend instance; `Option SwcArg` adds the absent case. -/
inductive SwcArg where
  | depName (s : String)
  | loaded (swcInstance : SwcInstance)

/-- The fixed message thrown when neither swc dependency resolves. -/
def bothMissingError : String :=
  "swc compiler requires either @swc/core or @swc/wasm to be installed as a dependency.  See https://typestrong.org/ts-node/docs/transpilers"

/-- The backend-resolution phase of `create`: `resolveH` models the
`transpilerConfigLocalResolveHelper` callback (`.error` models a throw) and
`loadH` models `require` on the resolved path.  Returns the pair
`(swcDepName, swcInstance)` the rest of `create` uses. -/
def resolveSwc (swc : Option SwcArg)
    (resolveH : String → Except String String)
    (loadH : String → SwcInstance) : Except String (String × SwcInstance) :=
  match swc with
  | some (.depName s) =>
    match resolveH s with
    | .error e => .error e
    | .ok p => .ok (s, loadH p)
  | none =>
    match resolveH "@swc/core" with
    | .ok p => .ok ("@swc/core", loadH p)
    | .error _ =>
      match resolveH "@swc/wasm" with
      | .ok p => .ok ("@swc/wasm", loadH p)
      | .error _ => .error bothMissingError
  | some (.loaded swcInstance) => .ok ("swc", swcInstance)

/-- The object returned by `create`, exposing `transpile`. -/
structure Transpiler where
  transpile : String → String → TranspileOutput

/-- The whole `create` function: resolve the backend, derive and validate
the two options objects, and return the transpiler closure. -/
def create (swc : Option SwcArg)
    (resolveH : String → Except String String)
    (loadH : String → SwcInstance)
    (compilerOptions : CompilerOptions)
    (nodeModuleEmitKind : Option NodeModuleEmitKind) : Except String Transpiler :=
  match resolveSwc swc resolveH loadH with
  | .error e => .error e
  | .ok (swcDepName, swcInstance) =>
    match createSwcOptions compilerOptions nodeModuleEmitKind swcInstance swcDepName with
    | .error e => .error e
    | .ok (nonTsxOptions, tsxOptions) =>
      .ok { transpile := fun input fileName =>
              transpile swcInstance nonTsxOptions tsxOptions input fileName }

/-- Substring containment on strings, phrased over the character data. -/
def ContainsStr (s sub : String) : Prop :=
  ∃ pre post : List Char, s.data = pre ++ sub.data ++ post



/-!
Concrete values used to exercise the definitions.
-/

/-- A host configuration with an explicit CommonJS module kind. -/
def cjsCompilerOptions : CompilerOptions :=
  { esModuleInterop := none, sourceMap := none, importHelpers := none
    experimentalDecorators := none, emitDecoratorMetadata := none
    target := some 2, module := some ModuleKind.CommonJS, jsx := none
    jsxFactory := none, jsxFragmentFactory := none, strict := none
    alwaysStrict := none, noImplicitUseStrict := none }

/-- The non-tsx options object derived from `cjsCompilerOptions`. -/
def sampleNonTsxOptions : SwcOptions :=
  createVariant cjsCompilerOptions none (some "es3") false

/-- The tsx options object derived from `cjsCompilerOptions`. -/
def sampleTsxOptions : SwcOptions :=
  createVariant cjsCompilerOptions none (some "es3") true

/-- A backend that accepts every probed target and every options object. -/
def allOkInstance : SwcInstance :=
  ⟨fun _ => true, fun _ => none, fun input _ _ => (input, none)⟩

/-- A backend that rejects every probed target. -/
def noneOkInstance : SwcInstance :=
  ⟨fun _ => false, fun _ => none, fun input _ _ => (input, none)⟩

/-- A backend that rejects every options object at validation time. -/
def rejectingInstance : SwcInstance :=
  ⟨fun _ => true, fun _ => some "unknown option", fun input _ _ => (input, none)⟩

/-- A synthetic backend whose output records which options object it was
handed, distinguishing the two variants by their tsx parser flag. -/
def recordingInstance : SwcInstance :=
  ⟨fun _ => true, fun _ => none, fun input swcOptions fileName =>
    (input ++ fileName ++ (if swcOptions.jsc.parser.tsx then "tsx" else "plain"), none)⟩

/-- A resolution callback on which every dependency name fails to resolve. -/
def failResolve : String → Except String String := fun _ => .error "not found"

/-!
General lemmas about the embedded definitions.
-/

/-- A value produced by an association-list lookup is among the values of
the list. -/
theorem lookup_mem_snd {α β : Type} [BEq α] (l : List (α × β)) (a : α) (b : β)
    (h : l.lookup a = some b) : b ∈ l.map Prod.snd := by
  induction l with
  | nil => simp [List.lookup] at h
  | cons p tl ih =>
    rw [List.lookup] at h
    by_cases hpa : a == p.1
    · simp [hpa] at h
      simp [← h]
    · simp [hpa] at h
      simp [ih h]

/-- The mapped requested target is always an entry of `swcTargets`. -/
theorem mappedSwcTarget_mem (target : Option Nat) :
    mappedSwcTarget target ∈ swcTargets := by
  unfold mappedSwcTarget
  cases h : target.bind targetMapping with
  | none => decide
  | some s =>
    simp only [Option.getD_some]
    cases target with
    | none => simp at h
    | some t =>
      simp only [Option.some_bind, targetMapping] at h
      have hm := lookup_mem_snd targetMappingEntries t s h
      rwa [show targetMappingEntries.map Prod.snd = swcTargets from rfl] at hm

/-- The starting index of the probe loop is inside the target table. -/
theorem mappedIdx_lt_length (target : Option Nat) :
    mappedIdx target < swcTargets.length :=
  List.indexOf_lt_length.mpr (mappedSwcTarget_mem target)

/-- In-range indexing of the target table agrees with defaulted indexing. -/
theorem swcTargets_getElem_eq (k : Nat) (hk : k < swcTargets.length) :
    swcTargets[k]? = some (swcTargets.getD k "") := by
  rw [List.getElem?_eq_getElem hk, List.getD_eq_getElem?_getD,
    List.getElem?_eq_getElem hk]
  rfl

/-- When every candidate at or below the start index fails, the probe loop
exhausts the table. -/
theorem probeLoop_eq_none (ok : Nat → Bool) (i : Nat)
    (h : ∀ j, j ≤ i → ok j = false) : probeLoop ok i = none := by
  induction i with
  | zero => simp [probeLoop, h 0 (Nat.le_refl 0)]
  | succ n ih =>
    simp only [probeLoop, h (n + 1) (Nat.le_refl _)]
    simpa using ih fun j hj => h j (Nat.le_succ_of_le hj)

/-- When some candidate at or below the start index succeeds, the probe
loop stops at the greatest succeeding candidate below the start index. -/
theorem probeLoop_spec (ok : Nat → Bool) (i j : Nat)
    (hj : j ≤ i) (hok : ok j = true) :
    ∃ k, probeLoop ok i = some k ∧ ok k = true ∧ k ≤ i ∧
      ∀ m, m ≤ i → ok m = true → m ≤ k := by
  induction i with
  | zero =>
    have hj0 : j = 0 := Nat.le_zero.mp hj
    subst hj0
    exact ⟨0, by simp [probeLoop, hok], hok, Nat.le_refl 0, fun m hm _ => hm⟩
  | succ n ih =>
    by_cases htop : ok (n + 1) = true
    · exact ⟨n + 1, by simp [probeLoop, htop], htop, Nat.le_refl _,
        fun m hm _ => hm⟩
    · have hj' : j ≤ n := by
        rcases Nat.lt_or_ge j (n + 1) with h1 | h1
        · omega
        · have hjn : j = n + 1 := by omega
          exact absurd hok (hjn ▸ htop)
      obtain ⟨k, hk1, hk2, hk3, hk4⟩ := ih hj'
      refine ⟨k, ?_, hk2, Nat.le_succ_of_le hk3, ?_⟩
      · simp only [probeLoop, htop]
        simpa using hk1
      · intro m hm hmok
        rcases Nat.lt_or_ge m (n + 1) with h1 | h1
        · exact hk4 m (by omega) hmok
        · have hmn : m = n + 1 := by omega
          exact absurd hmok (hmn ▸ htop)

/-- The conditional chain computing the swc module type never produces the
empty string. -/
theorem moduleType_ne_empty (module : Option Nat)
    (nodeModuleEmitKind : Option NodeModuleEmitKind) :
    moduleType module nodeModuleEmitKind ≠ "" := by
  unfold moduleType
  split_ifs <;> decide

/-!
Claim theorems.
-/

/-- C1: the derived strict-mode flag is false exactly when (alwaysStrict is
explicitly false, or alwaysStrict is unset and strict is not true) and
noImplicitUseStrict is explicitly true; every other combination of the
tri-state flags yields true. -/
theorem strictMode_tristate :
    ∀ (alwaysStrict strict noImplicitUseStrict : Option Bool),
      strictMode alwaysStrict strict noImplicitUseStrict = false ↔
        ((alwaysStrict = some false ∨ (alwaysStrict = none ∧ strict ≠ some true))
          ∧ noImplicitUseStrict = some true) := by
  decide

/-- Witness for C1 at a boundary row: alwaysStrict explicitly false,
noImplicitUseStrict explicitly true. -/
theorem strictMode_tristate_witness :
    strictMode (some false) none (some true) = false :=
  (strictMode_tristate (some false) none (some true)).mpr ⟨Or.inl rfl, rfl⟩

/-- C2: when the backend accepts at least one table entry at or below the
mapped requested level, the probed target is the greatest such entry and
never exceeds the mapped requested level. -/
theorem probed_target_is_greatest_supported (swcInstance : SwcInstance)
    (target : Option Nat) (j : Nat)
    (hj : j ≤ mappedIdx target) (hok : okIdx swcInstance j = true) :
    ∃ k, probeLoop (okIdx swcInstance) (mappedIdx target) = some k ∧
      probedSwcTarget swcInstance target = some (swcTargets.getD k "") ∧
      okIdx swcInstance k = true ∧ k ≤ mappedIdx target ∧
      ∀ m, m ≤ mappedIdx target → okIdx swcInstance m = true → m ≤ k := by
  obtain ⟨k, hk1, hk2, hk3, hk4⟩ :=
    probeLoop_spec (okIdx swcInstance) (mappedIdx target) j hj hok
  have hklt : k < swcTargets.length :=
    Nat.lt_of_le_of_lt hk3 (mappedIdx_lt_length target)
  refine ⟨k, hk1, ?_, hk2, hk3, hk4⟩
  unfold probedSwcTarget
  rw [hk1, Option.some_bind]
  exact swcTargets_getElem_eq k hklt

/-- Witness for C2: a backend accepting everything, probed at the newest
requested level. -/
theorem probed_target_is_greatest_supported_witness :
    ∃ k, probeLoop (okIdx allOkInstance) (mappedIdx (some 99)) = some k ∧
      probedSwcTarget allOkInstance (some 99) = some (swcTargets.getD k "") ∧
      okIdx allOkInstance k = true ∧ k ≤ mappedIdx (some 99) ∧
      ∀ m, m ≤ mappedIdx (some 99) → okIdx allOkInstance m = true → m ≤ k :=
  probed_target_is_greatest_supported allOkInstance (some 99) 10 (by decide) rfl

/-- C3: the module-kind mapping table: CommonJS, AMD and UMD map one-to-one;
a host-native kind (Node16 or NodeNext) maps to commonjs under the nodecjs
selector and to es6 under the nodeesm selector or when the selector is
unset. -/
theorem moduleType_mapping_table :
    (∀ e, moduleType (some ModuleKind.CommonJS) e = "commonjs") ∧
    (∀ e, moduleType (some ModuleKind.AMD) e = "amd") ∧
    (∀ e, moduleType (some ModuleKind.UMD) e = "umd") ∧
    (∀ m, (m = ModuleKind.Node16 ∨ m = ModuleKind.NodeNext) →
      moduleType (some m) (some NodeModuleEmitKind.nodecjs) = "commonjs" ∧
      moduleType (some m) (some NodeModuleEmitKind.nodeesm) = "es6" ∧
      moduleType (some m) none = "es6") := by
  refine ⟨by decide, by decide, by decide, ?_⟩
  rintro m (rfl | rfl) <;> exact ⟨by decide, by decide, by decide⟩

/-- Witness for C3: Node16 with the nodecjs selector maps to commonjs. -/
theorem moduleType_mapping_table_witness :
    moduleType (some ModuleKind.Node16) (some NodeModuleEmitKind.nodecjs) = "commonjs" :=
  (moduleType_mapping_table.2.2.2 ModuleKind.Node16 (Or.inl rfl)).1

/-- C4 counterexample: with the host module kind explicitly CommonJS (not a
host-native kind) and the emit-kind selector nodecjs, the emitted module
section is commonjs yet ignoreDynamic is still set, so the pass-through is
not restricted to commonjs emulation of a host-native module kind. -/
theorem ignoreDynamic_claim_counterexample :
    cjsCompilerOptions.module = some ModuleKind.CommonJS ∧
    isNodeModuleKind cjsCompilerOptions.module = false ∧
    (createVariant cjsCompilerOptions (some NodeModuleEmitKind.nodecjs)
        (some "es2015") false).module.map
      (fun mc => (mc.type, mc.ignoreDynamic)) = some ("commonjs", true) := by
  decide

/-- C4 as amended: the dynamic-import pass-through flag equals the test
that the emit-kind selector is nodecjs, independent of the host module
kind. -/
theorem ignoreDynamic_iff_emitKind_nodecjs (compilerOptions : CompilerOptions)
    (nodeModuleEmitKind : Option NodeModuleEmitKind)
    (swcTarget : Option String) (isTsx : Bool) :
    (createVariant compilerOptions nodeModuleEmitKind swcTarget isTsx).module.map
      (fun mc => mc.ignoreDynamic) =
      some (decide (nodeModuleEmitKind = some NodeModuleEmitKind.nodecjs)) := by
  have h := moduleType_ne_empty compilerOptions.module nodeModuleEmitKind
  simp [createVariant, h]

/-- Witness for C4 as amended: with the selector unset, dynamic imports are
transformed normally even though the output is commonjs. -/
theorem ignoreDynamic_iff_emitKind_nodecjs_witness :
    (createVariant cjsCompilerOptions none (some "es3") false).module.map
      (fun mc => mc.ignoreDynamic) = some false := by
  have h := ignoreDynamic_iff_emitKind_nodecjs cjsCompilerOptions none (some "es3") false
  simpa using h

/-- C5: transpile hands the backend the tsx options object exactly for
filenames ending in .tsx or .jsx and the non-tsx object for all others,
extends the chosen object with the literal filename, and repackages the
backend result as outputText and sourceMapText. -/
theorem transpile_selects_by_extension (swcInstance : SwcInstance)
    (nonTsxOptions tsxOptions : SwcOptions) (input fileName : String) :
    ((endsWith fileName ".tsx" = true ∨ endsWith fileName ".jsx" = true) →
      transpile swcInstance nonTsxOptions tsxOptions input fileName =
        { outputText := (swcInstance.transformSync input tsxOptions fileName).1
          sourceMapText := (swcInstance.transformSync input tsxOptions fileName).2 }) ∧
    ((endsWith fileName ".tsx" = false ∧ endsWith fileName ".jsx" = false) →
      transpile swcInstance nonTsxOptions tsxOptions input fileName =
        { outputText := (swcInstance.transformSync input nonTsxOptions fileName).1
          sourceMapText := (swcInstance.transformSync input nonTsxOptions fileName).2 }) := by
  constructor
  · rintro (h | h) <;> simp [transpile, h]
  · rintro ⟨h1, h2⟩
    simp [transpile, h1, h2]

/-- Witness for C5: a .tsx filename reaches the recording backend with the
tsx options object. -/
theorem transpile_selects_by_extension_witness :
    transpile recordingInstance sampleNonTsxOptions sampleTsxOptions "code" "f.tsx" =
      { outputText := (recordingInstance.transformSync "code" sampleTsxOptions "f.tsx").1
        sourceMapText := (recordingInstance.transformSync "code" sampleTsxOptions "f.tsx").2 } :=
  (transpile_selects_by_extension recordingInstance sampleNonTsxOptions
    sampleTsxOptions "code" "f.tsx").1 (Or.inl (by decide))

/-- C6: for every host configuration, selector and probed target, the two
produced options objects are identical except for the tsx parser flag,
which is false in the plain object and true in the markup object. -/
theorem variants_differ_only_in_tsx (compilerOptions : CompilerOptions)
    (nodeModuleEmitKind : Option NodeModuleEmitKind) (swcTarget : Option String) :
    createVariant compilerOptions nodeModuleEmitKind swcTarget true =
      (fun o =>
        { o with jsc := { o.jsc with parser := { o.jsc.parser with tsx := true } } })
        (createVariant compilerOptions nodeModuleEmitKind swcTarget false) ∧
    (createVariant compilerOptions nodeModuleEmitKind swcTarget false).jsc.parser.tsx = false ∧
    (createVariant compilerOptions nodeModuleEmitKind swcTarget true).jsc.parser.tsx = true :=
  ⟨rfl, rfl, rfl⟩

/-- Witness for C6 at a concrete configuration. -/
theorem variants_differ_only_in_tsx_witness :
    createVariant cjsCompilerOptions none (some "es3") true =
      (fun o =>
        { o with jsc := { o.jsc with parser := { o.jsc.parser with tsx := true } } })
        (createVariant cjsCompilerOptions none (some "es3") false) ∧
    (createVariant cjsCompilerOptions none (some "es3") false).jsc.parser.tsx = false ∧
    (createVariant cjsCompilerOptions none (some "es3") true).jsc.parser.tsx = true :=
  variants_differ_only_in_tsx cjsCompilerOptions none (some "es3")

/-- C7: with no explicit backend, if both dependency names fail to resolve
then construction fails with a message containing both names and the
configuration-guidance URL; if only the primary fails, the fallback
dependency is the one loaded. -/
theorem resolveSwc_fallback_and_error (resolveH : String → Except String String)
    (loadH : String → SwcInstance) (compilerOptions : CompilerOptions)
    (nodeModuleEmitKind : Option NodeModuleEmitKind) :
    (∀ e1 e2, resolveH "@swc/core" = .error e1 → resolveH "@swc/wasm" = .error e2 →
      ∃ s, create none resolveH loadH compilerOptions nodeModuleEmitKind = .error s ∧
        ContainsStr s "@swc/core" ∧ ContainsStr s "@swc/wasm" ∧
        ContainsStr s "https://typestrong.org/ts-node/docs/transpilers") ∧
    (∀ e1 p, resolveH "@swc/core" = .error e1 → resolveH "@swc/wasm" = .ok p →
      resolveSwc none resolveH loadH = .ok ("@swc/wasm", loadH p)) := by
  constructor
  · intro e1 e2 h1 h2
    refine ⟨bothMissingError, ?_, ?_, ?_, ?_⟩
    · simp [create, resolveSwc, h1, h2]
    · exact ⟨"swc compiler requires either ".data,
        " or @swc/wasm to be installed as a dependency.  See https://typestrong.org/ts-node/docs/transpilers".data,
        by decide⟩
    · exact ⟨"swc compiler requires either @swc/core or ".data,
        " to be installed as a dependency.  See https://typestrong.org/ts-node/docs/transpilers".data,
        by decide⟩
    · exact ⟨"swc compiler requires either @swc/core or @swc/wasm to be installed as a dependency.  See ".data,
        [], by decide⟩
  · intro e1 p h1 h2
    simp [resolveSwc, h1, h2]

/-- Witness for C7: a resolver failing on every name makes construction
fail with the message naming both dependencies. -/
theorem resolveSwc_fallback_and_error_witness :
    ∃ s, create none failResolve (fun _ => allOkInstance) cjsCompilerOptions none = .error s ∧
      ContainsStr s "@swc/core" ∧ ContainsStr s "@swc/wasm" ∧
      ContainsStr s "https://typestrong.org/ts-node/docs/transpilers" :=
  (resolveSwc_fallback_and_error failResolve (fun _ => allOkInstance)
    cjsCompilerOptions none).1 "not found" "not found" rfl rfl

/-- C8: when the backend rejects the trial compile of a translated options
object, the variant construction fails with an error containing the
resolved backend dependency name and the raw backend message. -/
theorem validation_gate_error_naming (swcInstance : SwcInstance)
    (swcDepName : String) (compilerOptions : CompilerOptions)
    (nodeModuleEmitKind : Option NodeModuleEmitKind)
    (swcTarget : Option String) (isTsx : Bool) (msg : String)
    (h : swcInstance.validate
      (createVariant compilerOptions nodeModuleEmitKind swcTarget isTsx) = some msg) :
    ∃ s, createVariantChecked swcInstance swcDepName compilerOptions
        nodeModuleEmitKind swcTarget isTsx = .error s ∧
      ContainsStr s swcDepName ∧ ContainsStr s msg := by
  refine ⟨swcDepName ++ validationErrorText ++ msg, ?_, ?_, ?_⟩
  · simp [createVariantChecked, h]
  · exact ⟨[], (validationErrorText ++ msg).data, by simp [String.data_append]⟩
  · exact ⟨(swcDepName ++ validationErrorText).data, [], by simp [String.data_append]⟩

/-- Witness for C8: a backend rejecting every options object makes the
variant construction fail with a message naming the dependency and quoting
the backend. -/
theorem validation_gate_error_naming_witness :
    ∃ s, createVariantChecked rejectingInstance "@swc/core" cjsCompilerOptions
        none (some "es3") false = .error s ∧
      ContainsStr s "@swc/core" ∧ ContainsStr s "unknown option" :=
  validation_gate_error_naming rejectingInstance "@swc/core" cjsCompilerOptions
    none (some "es3") false "unknown option" rfl

/-- C9: when the backend rejects every table entry at or below the mapped
requested level, the probing loop runs below the first entry and the
selected target is undefined (modelled as none) instead of an error. -/
theorem probe_exhaustion_yields_undefined (swcInstance : SwcInstance)
    (target : Option Nat)
    (h : ∀ j, j ≤ mappedIdx target → okIdx swcInstance j = false) :
    probedSwcTarget swcInstance target = none := by
  unfold probedSwcTarget
  rw [probeLoop_eq_none (okIdx swcInstance) (mappedIdx target) h]
  rfl

/-- Witness for C9: a backend rejecting every probe leaves the selected
target undefined. -/
theorem probe_exhaustion_yields_undefined_witness :
    probedSwcTarget noneOkInstance (some 0) = none :=
  probe_exhaustion_yields_undefined noneOkInstance (some 0) (fun _ _ => rfl)

/-- C10: the module-type mapping always yields one of the four non-empty
backend module strings, so the module section of every produced options
object is present and the undefined-module branch is unreachable. -/
theorem module_section_always_present (compilerOptions : CompilerOptions)
    (nodeModuleEmitKind : Option NodeModuleEmitKind)
    (swcTarget : Option String) (isTsx : Bool) :
    (moduleType compilerOptions.module nodeModuleEmitKind = "commonjs" ∨
      moduleType compilerOptions.module nodeModuleEmitKind = "amd" ∨
      moduleType compilerOptions.module nodeModuleEmitKind = "umd" ∨
      moduleType compilerOptions.module nodeModuleEmitKind = "es6") ∧
    moduleType compilerOptions.module nodeModuleEmitKind ≠ "" ∧
    (createVariant compilerOptions nodeModuleEmitKind swcTarget isTsx).module.isSome = true := by
  refine ⟨?_, moduleType_ne_empty _ _, ?_⟩
  · unfold moduleType
    split_ifs <;> simp
  · simp [createVariant, moduleType_ne_empty compilerOptions.module nodeModuleEmitKind]

/-- Witness for C10 at a concrete configuration. -/
theorem module_section_always_present_witness :
    (createVariant cjsCompilerOptions none none false).module.isSome = true :=
  (module_section_always_present cjsCompilerOptions none none false).2.2

end SwcTs
